import Mathlib

/-!
Verification of the wallet-lookup and chart-construction logic of
src/odyssey_app.py (a streamlit airdrop-allocation viewer).

Strings are modelled as lists of characters; Python's str.lower() is
modelled characterwise by Char.toLower (the source only relies on
case-insensitivity of ASCII hex addresses).  Monetary quantities
("Odyssey Drop", "wShards") are modelled as rationals.
-/

/-- Python s.lower(), applied characterwise. -/
def pyLower (s : List Char) : List Char := s.map Char.toLower

/-- Embedding of process_wallet (src/odyssey_app.py lines 30-36):
if the input has at least 10 characters, the key is the lowercased
first six characters, an ellipsis, and the lowercased last four
characters (Python wallet[:6].lower(), wallet[-4:].lower()); otherwise
the key is the whole string lowercased. -/
def process_wallet (wallet : List Char) : List Char :=
  if wallet.length ≥ 10 then
    pyLower (wallet.take 6) ++ ['…'] ++ pyLower (wallet.drop (wallet.length - 4))
  else
    pyLower wallet

/-- One row of the loaded table (columns used by the app: Name, Wallet,
Odyssey Drop, wShards). -/
structure Record where
  name : String
  wallet : List Char
  odysseyDrop : ℚ
  wShards : ℚ
deriving DecidableEq, Repr

/-- Embedding of the precomputed search key column (src/odyssey_app.py
line 21): df['Wallet_lower'] = df['Wallet'].str.lower() — the plain
lowercase of the stored Wallet field. -/
def Wallet_lower (r : Record) : List Char := pyLower r.wallet

/-- C1 counterexample record: its canonical address is a plain
twelve-character string, as a full wallet address would be. -/
def c1rec : Record :=
  { name := "X", wallet := "0xABCDEFGHIJ".data, odysseyDrop := 1, wShards := 1 }

/-! ### The search (src/odyssey_app.py lines 61-71)

The app searches only when the button is pressed and the input string
is non-empty (Python truthiness of the string); it then filters the
frame on the precomputed Wallet_lower column being equal to the
processed input and takes the first matching row together with its
positional index (the frame carries the default range index 0..n-1). -/
/-- First row whose Wallet_lower column equals the key, scanning from
positional index i. -/
def lookupAux (key : List Char) : List Record → Nat → Option (Record × Nat)
  | [], _ => none
  | r :: rs, i =>
      if Wallet_lower r = key then some (r, i) else lookupAux key rs (i + 1)

/-- Embedding of the search: empty input means no search is performed
(Python falsiness), otherwise the input is normalized by
process_wallet and matched against the Wallet_lower column; the result
is the first matching record and its zero-based position, or none. -/
def lookup (df : List Record) (rawWallet : List Char) : Option (Record × Nat) :=
  if rawWallet = [] then none
  else lookupAux (process_wallet rawWallet) df 0

/-- Record used by the lookup witness: its stored Wallet field is
already in the truncated mixed-case display form. -/
def wrec : Record :=
  { name := "Alice", wallet := "0xAbCd…1234".data, odysseyDrop := 100, wShards := 5 }

/-! ### The chart build (src/odyssey_app.py lines 76-197)

The chart-construction block of main is embedded as a function of the
record list and the optional search index, the only inputs it reads.
Purely cosmetic layout constants (title, margins, background and grid
colors, legend placement, tick format) are omitted; everything that
depends on the data or on the search index is kept.  numpy's log10 is
represented symbolically: only the definedness of the endpoint matters
to the claims, so a finite value log10 x is represented by its
argument x. -/
/-- Result of np.log10 on an optional quantity: log10 of an absent
value (pandas max of an empty column is NaN) or of a negative number
is NaN, log10 of 0 is -inf, and log10 of a positive x is finite and
represented by x itself. -/
inductive Log10 where
  | nan : Log10
  | negInf : Log10
  | finite : ℚ → Log10
deriving DecidableEq, Repr

/-- True exactly for a finite (defined) log value. -/
def Log10.isFiniteVal : Log10 → Bool
  | .finite _ => true
  | _ => false

/-- np.log10 applied to an optional quantity. -/
def np_log10 (x : Option ℚ) : Log10 :=
  match x with
  | none => .nan
  | some q => if q < 0 then .nan else if q = 0 then .negInf else .finite q

/-- pandas Series.max: NaN (modelled none) on an empty column,
otherwise the maximum entry. -/
def pdMax : List ℚ → Option ℚ
  | [] => none
  | q :: qs => some (qs.foldl max q)

/-- Python list element assignment xs[i] = v: a negative index counts
from the end; an index outside [-len, len) raises IndexError, modelled
as none. -/
def pySetItem {α : Type} (xs : List α) (i : Int) (v : α) : Option (List α) :=
  let j : Int := if i < 0 then i + xs.length else i
  if 0 ≤ j ∧ j < xs.length then some (xs.set j.toNat v) else none

/-- The conditional marker mutation: the default array is returned
unchanged when no search matched (search_index is None), otherwise the
entry at the search index is overwritten. -/
def highlightArr {α : Type} (base : List α) (idx : Option Int) (v : α) :
    Option (List α) :=
  match idx with
  | none => some base
  | some i => pySetItem base i v

/-- The Odyssey Drop scatter trace (lines 91-114): positions, values,
colormap values, marker size/border arrays and tooltip data. -/
structure ScatterA where
  x : List Nat
  y : List ℚ
  colors : List ℚ
  sizes : List Nat
  lineWidths : List Nat
  lineColors : List String
  hover : List (Nat × String × List Char × ℚ × ℚ)
deriving DecidableEq, Repr

/-- The wShards scatter trace (lines 130-148), drawn against the
second vertical axis. -/
structure ScatterB where
  x : List Nat
  y : List ℚ
  colors : List String
  sizes : List Nat
  lineWidths : List Nat
  lineColors : List String
  yaxisRef : String
  hover : List (Nat × ℚ)
deriving DecidableEq, Repr

/-- One vertical axis of the layout (lines 162-180). -/
structure AxisSpec where
  typ : String
  rangeLo : Log10
  rangeHi : Log10
deriving DecidableEq, Repr

/-- The data-dependent part of fig.update_layout (lines 151-195). -/
structure ChartLayout where
  yaxis : AxisSpec
  yaxis2 : AxisSpec
  yaxis2Overlaying : String
  yaxis2Side : String
deriving DecidableEq, Repr

/-- The chart description handed to the presentation layer. -/
structure Chart where
  seriesA : ScatterA
  seriesB : ScatterB
  layout : ChartLayout
deriving DecidableEq, Repr

/-- Embedding of the chart-construction block (lines 76-197): default
marker arrays sized by len(df), conditional overwrite at the search
index, the two scatter traces, and the log-scaled axis ranges
[np.log10(1), np.log10(column max)]. -/
def build (records : List Record) (searchIdx : Option Int) : Option Chart := do
  let n := records.length
  let drops := records.map Record.odysseyDrop
  let shards := records.map Record.wShards
  let markerSizes ← highlightArr (List.replicate n 6) searchIdx 12
  let markerLineWidth ← highlightArr (List.replicate n 0) searchIdx 2
  let markerLineColor ← highlightArr (List.replicate n "white") searchIdx "#00ff00"
  let wshardSizes ← highlightArr (List.replicate n 4) searchIdx 8
  let wshardColors ←
    highlightArr (List.replicate n "rgba(255, 0, 0, 0.5)") searchIdx "rgba(255, 0, 0, 0.8)"
  let wshardLineWidth ← highlightArr (List.replicate n 0) searchIdx 2
  let wshardLineColor ← highlightArr (List.replicate n "white") searchIdx "#00ff00"
  pure
    { seriesA :=
        { x := List.range n
          y := drops
          colors := drops
          sizes := markerSizes
          lineWidths := markerLineWidth
          lineColors := markerLineColor
          hover := (List.range n).zip records |>.map
            (fun p => (p.1 + 1, p.2.name, p.2.wallet, p.2.odysseyDrop, p.2.wShards)) }
      seriesB :=
        { x := (List.range n).map (· + 25)
          y := shards
          colors := wshardColors
          sizes := wshardSizes
          lineWidths := wshardLineWidth
          lineColors := wshardLineColor
          yaxisRef := "y2"
          hover := (List.range n).zip records |>.map
            (fun p => (p.1 + 1, p.2.wShards)) }
      layout :=
        { yaxis :=
            { typ := "log"
              rangeLo := np_log10 (some 1)
              rangeHi := np_log10 (pdMax drops) }
          yaxis2 :=
            { typ := "log"
              rangeLo := np_log10 (some 1)
              rangeHi := np_log10 (pdMax shards) }
          yaxis2Overlaying := "y"
          yaxis2Side := "right" } }

/-- First of the two records used by the chart counterexamples and
witnesses. -/
def r2a : Record :=
  { name := "A", wallet := "0xAbCd…1111".data, odysseyDrop := 100, wShards := 5 }

/-- Second of the two records used by the chart counterexamples and
witnesses. -/
def r2b : Record :=
  { name := "B", wallet := "0x9988…6655".data, odysseyDrop := 50, wShards := 3 }

/-- Two-record table used by the chart counterexamples and witnesses. -/
def recs2 : List Record := [r2a, r2b]

/-- Record whose reward quantities are both zero, for the axis-range
counterexample. -/
def zrec : Record :=
  { name := "Z", wallet := "0xAbCd…0000".data, odysseyDrop := 0, wShards := 0 }

/-! ### Facts about Char.toLower -/
theorem char_toNat_inj {c d : Char} (h : c.toNat = d.toNat) : c = d := by
  have h2 := congrArg Char.ofNat h
  rwa [Char.ofNat_toNat, Char.ofNat_toNat] at h2

theorem toNat_charOfNat_of_valid {n : Nat} (h : n.isValidChar) :
    (Char.ofNat n).toNat = n := by
  rw [Char.ofNat, dif_pos h]
  rfl

theorem char_toLower_toNat (c : Char) :
    (Char.toLower c).toNat =
      if 65 ≤ c.toNat ∧ c.toNat ≤ 90 then c.toNat + 32 else c.toNat := by
  by_cases h : 65 ≤ c.toNat ∧ c.toNat ≤ 90
  · rw [if_pos h]
    show (if c.toNat ≥ 65 ∧ c.toNat ≤ 90 then Char.ofNat (c.toNat + 32) else c).toNat
        = c.toNat + 32
    rw [if_pos h]
    exact toNat_charOfNat_of_valid (Or.inl (by omega))
  · rw [if_neg h]
    show (if c.toNat ≥ 65 ∧ c.toNat ≤ 90 then Char.ofNat (c.toNat + 32) else c).toNat
        = c.toNat
    rw [if_neg h]

theorem char_toLower_eq_self {c : Char} (h : ¬(65 ≤ c.toNat ∧ c.toNat ≤ 90)) :
    Char.toLower c = c :=
  char_toNat_inj (by rw [char_toLower_toNat, if_neg h])

theorem char_toLower_idem (c : Char) :
    Char.toLower (Char.toLower c) = Char.toLower c := by
  by_cases h : 65 ≤ c.toNat ∧ c.toNat ≤ 90
  · apply char_toLower_eq_self
    rw [char_toLower_toNat, if_pos h]
    omega
  · rw [char_toLower_eq_self h, char_toLower_eq_self h]

theorem char_toLower_eq_hellip {c : Char} :
    Char.toLower c = '…' ↔ c = '…' := by
  constructor
  · intro h
    by_cases hu : 65 ≤ c.toNat ∧ c.toNat ≤ 90
    · exfalso
      have h2 := congrArg Char.toNat h
      rw [char_toLower_toNat, if_pos hu] at h2
      have h3 : ('…' : Char).toNat = 8230 := by decide
      omega
    · rwa [char_toLower_eq_self hu] at h
  · intro h
    subst h
    exact char_toLower_eq_self (by decide)

/-! ### Facts about pyLower -/
theorem pyLower_length (s : List Char) : (pyLower s).length = s.length :=
  List.length_map s Char.toLower

theorem pyLower_idem (s : List Char) : pyLower (pyLower s) = pyLower s := by
  induction s with
  | nil => rfl
  | cons c t ih =>
      simp only [pyLower, List.map_cons, List.map_map] at ih ⊢
      rw [char_toLower_idem]
      exact congrArg _ ih

/-! ### Normalization claims -/
/-- C2: for every string s, if its length is at least 10 then
process_wallet s is the lowercased first six characters, an ellipsis,
and the lowercased last four characters; if its length is below 10 it
is the lowercase of s. -/
theorem process_wallet_spec (s : List Char) :
    (10 ≤ s.length →
      process_wallet s
        = pyLower (s.take 6) ++ ['…'] ++ pyLower (s.drop (s.length - 4)))
    ∧ (s.length < 10 → process_wallet s = pyLower s) := by
  constructor
  · intro h
    rw [process_wallet, if_pos h]
  · intro h
    rw [process_wallet, if_neg (by omega)]

/-- C2 witness: both branches evaluated at concrete inputs. -/
theorem process_wallet_spec_witness :
    process_wallet "0xABCDEF1234".data
      = pyLower ("0xABCDEF1234".data.take 6) ++ ['…']
          ++ pyLower ("0xABCDEF1234".data.drop ("0xABCDEF1234".data.length - 4))
    ∧ process_wallet "0xAb".data = pyLower "0xAb".data :=
  ⟨(process_wallet_spec "0xABCDEF1234".data).1 (by decide),
   (process_wallet_spec "0xAb".data).2 (by decide)⟩

/-- C10: process_wallet is total (in particular it maps the empty
string to the empty string), and on any input of length at least 10 its
output has exactly 11 characters, hence itself satisfies the length
threshold on re-normalization. -/
theorem process_wallet_total :
    process_wallet [] = []
    ∧ ∀ s : List Char, 10 ≤ s.length →
        (process_wallet s).length = 11 ∧ 10 ≤ (process_wallet s).length := by
  refine ⟨rfl, fun s h => ?_⟩
  have h11 : (process_wallet s).length = 11 := by
    rw [process_wallet, if_pos h]
    simp only [List.length_append, pyLower_length, List.length_take,
      List.length_drop, List.length_cons, List.length_nil]
    omega
  exact ⟨h11, by omega⟩

/-- C10 witness: the length facts at a concrete twelve-character input. -/
theorem process_wallet_total_witness :
    (process_wallet "0xABCDEFGHIJ".data).length = 11
    ∧ 10 ≤ (process_wallet "0xABCDEFGHIJ".data).length :=
  process_wallet_total.2 "0xABCDEFGHIJ".data (by decide)

/-- C7: process_wallet is idempotent. -/
theorem process_wallet_idem (s : List Char) :
    process_wallet (process_wallet s) = process_wallet s := by
  by_cases h : 10 ≤ s.length
  · have hA : (pyLower (s.take 6)).length = 6 := by
      rw [pyLower_length, List.length_take]; omega
    have hB : (pyLower (s.drop (s.length - 4))).length = 4 := by
      rw [pyLower_length, List.length_drop]; omega
    have hPW : process_wallet s
        = pyLower (s.take 6) ++ ['…'] ++ pyLower (s.drop (s.length - 4)) := by
      rw [process_wallet, if_pos h]
    rw [hPW]
    set A := pyLower (s.take 6) with hAdef
    set B := pyLower (s.drop (s.length - 4)) with hBdef
    have hlen : (A ++ ['…'] ++ B).length = 11 := by
      simp only [List.length_append, List.length_cons, List.length_nil, hA, hB]
    have htake : (A ++ ['…'] ++ B).take 6 = A := by
      rw [List.append_assoc, List.take_left' hA]
    have hdrop : (A ++ ['…'] ++ B).drop 7 = B := by
      have h7 : (A ++ ['…']).length = 7 := by
        simp only [List.length_append, List.length_cons, List.length_nil, hA]
      rw [List.drop_left' h7]
    rw [process_wallet, if_pos (by omega), hlen]
    rw [(by norm_num : (11 : Nat) - 4 = 7), htake, hdrop]
    rw [hAdef, hBdef, pyLower_idem, pyLower_idem]
  · have h1 : process_wallet s = pyLower s := by
      rw [process_wallet, if_neg (by omega)]
    rw [h1, process_wallet, if_neg (by rw [pyLower_length]; omega), pyLower_idem]

/-- Key lemma for C1: for a string of length exactly 11, the plain
lowercase equals the §4.1 normalization exactly when the character at
index 6 is the ellipsis. -/
theorem pyLower_eq_process_of_len11 (w : List Char) (h : w.length = 11) :
    (pyLower w = process_wallet w ↔ w[6]? = some '…') := by
  have h6 : 6 < w.length := by omega
  have hsplit : w = w.take 6 ++ (w[6] :: w.drop 7) := by
    conv_lhs => rw [← List.take_append_drop 6 w]
    rw [List.drop_eq_getElem_cons h6]
  rw [process_wallet, if_pos (by omega), h]
  rw [(by norm_num : (11 : Nat) - 4 = 7)]
  conv_lhs => lhs; rw [hsplit]
  simp only [pyLower, List.map_append, List.map_cons, List.singleton_append]
  rw [List.append_assoc, List.singleton_append, List.append_right_inj]
  simp only [List.cons.injEq, and_true]
  rw [char_toLower_eq_hellip, List.getElem?_eq_getElem h6, Option.some.injEq]

/-- C1 amended: the precomputed lookup key stored for a record is the
plain lowercase of its canonical walletAddress, not the §4.1
normalization; the two coincide exactly when the address is shorter
than 10 characters, or is an 11-character truncated display form whose
character at index 6 is the ellipsis.  For any other address of length
at least 10 the stored key differs from the normalized form of the same
address, so such a lookup cannot match. -/
theorem wallet_key_matches_iff (r : Record) :
    Wallet_lower r = process_wallet r.wallet ↔
      (r.wallet.length < 10
        ∨ (r.wallet.length = 11 ∧ r.wallet[6]? = some '…')) := by
  rcases r with ⟨nm, w, d, sh⟩
  show pyLower w = process_wallet w ↔
    (w.length < 10 ∨ (w.length = 11 ∧ w[6]? = some '…'))
  by_cases h : 10 ≤ w.length
  · constructor
    · intro he
      have hlen : w.length = 11 := by
        have h1 := congrArg List.length he
        rw [pyLower_length, process_wallet, if_pos h] at h1
        simp only [List.length_append, pyLower_length, List.length_take,
          List.length_drop, List.length_cons, List.length_nil] at h1
        omega
      exact Or.inr ⟨hlen, (pyLower_eq_process_of_len11 w hlen).1 he⟩
    · rintro (hlt | ⟨hlen, hget⟩)
      · omega
      · exact (pyLower_eq_process_of_len11 w hlen).2 hget
  · rw [process_wallet, if_neg (by omega)]
    simp only [true_iff, eq_self_iff_true]
    exact Or.inl (by omega)

/-- C1 counterexample: for this stored record the precomputed lookup
key (plain lowercase) differs from the result of applying the §4.1
normalization rule to its canonical walletAddress. -/
theorem wallet_key_mismatch :
    Wallet_lower c1rec ≠ process_wallet c1rec.wallet := by decide

theorem lookupAux_eq_none (key : List Char) (l : List Record) (start : Nat)
    (h : ∀ (k : Nat) (r : Record), l[k]? = some r → Wallet_lower r ≠ key) :
    lookupAux key l start = none := by
  induction l generalizing start with
  | nil => rfl
  | cons a t ih =>
      rw [lookupAux, if_neg (h 0 a (by simp))]
      exact ih (start + 1) (fun k r hk => h (k + 1) r (by simpa using hk))

theorem lookupAux_found (key : List Char) (l : List Record) (start j : Nat)
    (r : Record) (hj : l[j]? = some r) (hr : Wallet_lower r = key)
    (hmin : ∀ (k : Nat) (r' : Record), k < j → l[k]? = some r' →
      Wallet_lower r' ≠ key) :
    lookupAux key l start = some (r, start + j) := by
  induction l generalizing start j with
  | nil => simp at hj
  | cons a t ih =>
      cases j with
      | zero =>
          have ha : a = r := by simpa using hj
          subst ha
          rw [lookupAux, if_pos hr, Nat.add_zero]
      | succ j' =>
          rw [lookupAux, if_neg (hmin 0 a (Nat.succ_pos j') (by simp))]
          have h2 := ih (start + 1) j' (by simpa using hj)
            (fun k r' hk h1 => hmin (k + 1) r' (by omega) (by simpa using h1))
          rw [h2]
          have h3 : start + 1 + j' = start + (j' + 1) := by omega
          rw [h3]

/-- C3: lookup normalizes the raw input with process_wallet and
searches the stored keys for an exact match; on the empty input it
returns none for any record list; when some record's key matches, it
returns the first matching record with its zero-based position; when
no key matches, it returns none. -/
theorem lookup_spec (df : List Record) (raw : List Char) :
    (raw = [] → lookup df raw = none)
    ∧ (∀ (j : Nat) (r : Record), raw ≠ [] → df[j]? = some r →
        Wallet_lower r = process_wallet raw →
        (∀ (k : Nat) (r' : Record), k < j → df[k]? = some r' →
          Wallet_lower r' ≠ process_wallet raw) →
        lookup df raw = some (r, j))
    ∧ ((∀ (k : Nat) (r' : Record), df[k]? = some r' →
          Wallet_lower r' ≠ process_wallet raw) →
        lookup df raw = none) := by
  refine ⟨fun h => by rw [lookup, if_pos h], ?_, ?_⟩
  · intro j r hraw hj hr hmin
    rw [lookup, if_neg hraw]
    have h2 := lookupAux_found (process_wallet raw) df 0 j r hj hr hmin
    rwa [Nat.zero_add] at h2
  · intro hnone
    by_cases hraw : raw = []
    · rw [lookup, if_pos hraw]
    · rw [lookup, if_neg hraw]
      exact lookupAux_eq_none (process_wallet raw) df 0 hnone

/-- C3 witness: searching the full-length address 0xABCDEF1234 against
a one-record table whose stored key is 0xabcd…1234 finds the record at
position 0. -/
theorem lookup_spec_witness :
    lookup [wrec] "0xABCDEF1234".data = some (wrec, 0) :=
  (lookup_spec [wrec] "0xABCDEF1234".data).2.1 0 wrec (by decide) (by decide)
    (by decide) (fun k r' hk _ => absurd hk (Nat.not_lt_zero k))

/-! ### Facts about pySetItem -/
theorem pySetItem_nat {α : Type} (xs : List α) (p : Nat) (v : α)
    (h : p < xs.length) :
    pySetItem xs (p : Int) v = some (xs.set p v) := by
  simp only [pySetItem]
  rw [if_neg (show ¬((p : Int) < 0) by omega),
    if_pos (show (0:Int) ≤ (p : Int) ∧ (p : Int) < (xs.length : Int) by
      constructor <;> omega),
    Int.toNat_natCast]

theorem pySetItem_neg {α : Type} (xs : List α) (i : Int) (v : α)
    (h1 : -(xs.length : Int) ≤ i) (h2 : i < 0) :
    pySetItem xs i v = pySetItem xs (i + xs.length) v := by
  simp only [pySetItem]
  rw [if_pos (show i < (0:Int) from h2),
    if_neg (show ¬(i + (xs.length : Int) < 0) by omega)]

theorem pySetItem_oob {α : Type} (xs : List α) (i : Int) (v : α)
    (h : i < -(xs.length : Int) ∨ (xs.length : Int) ≤ i) :
    pySetItem xs i v = none := by
  simp only [pySetItem]
  by_cases h2 : i < 0
  · rw [if_pos (show i < (0:Int) from h2), if_neg (by omega)]
  · rw [if_neg (show ¬(i < (0:Int)) from h2), if_neg (by omega)]

/-! ### Chart claims -/
/-- C8: with no highlight, Series A has one point per record at
x = position and y = dropAmount, Series B one point per record at
x = position + 25 and y = shardCount, referencing the second vertical
axis, which overlays the first on the right side and so shares the
horizontal axis. -/
theorem chart_series_spec (records : List Record) :
    (build records none).map (fun c => c.seriesA.x)
      = some (List.range records.length)
    ∧ (build records none).map (fun c => c.seriesA.y)
      = some (records.map Record.odysseyDrop)
    ∧ (build records none).map (fun c => c.seriesB.x)
      = some ((List.range records.length).map (· + 25))
    ∧ (build records none).map (fun c => c.seriesB.y)
      = some (records.map Record.wShards)
    ∧ (build records none).map (fun c => c.seriesB.yaxisRef) = some "y2"
    ∧ (build records none).map
        (fun c => (c.layout.yaxis2Overlaying, c.layout.yaxis2Side))
      = some ("y", "right") :=
  ⟨rfl, rfl, rfl, rfl, rfl, rfl⟩

/-- C9: the chart build is a pure function of the record list and the
highlight index; identical inputs yield identical chart descriptions. -/
theorem build_deterministic (r1 r2 : List Record) (p1 p2 : Option Int)
    (h1 : r1 = r2) (h2 : p1 = p2) : build r1 p1 = build r2 p2 := by
  rw [h1, h2]

/-- C9 witness: determinism instantiated at a concrete one-record
chart build with a highlight. -/
theorem build_deterministic_witness :
    build [wrec] (some 0) = build [wrec] (some 0) :=
  build_deterministic [wrec] [wrec] (some 0) (some 0) rfl rfl

/-- C4 counterexample: on a two-record table, build with highlight
position -1 highlights the last point (Python negative indexing)
instead of producing the unhighlighted chart, and build with the
out-of-range position 5 fails instead of degrading gracefully. -/
theorem build_out_of_range_cex :
    build recs2 (some (-1)) ≠ build recs2 none
    ∧ (build recs2 (some (-1))).map (fun c => c.seriesA.sizes) = some [6, 12]
    ∧ (build recs2 none).map (fun c => c.seriesA.sizes) = some [6, 6]
    ∧ build recs2 (some 5) = none := by
  refine ⟨by decide, by decide, by decide, by decide⟩

/-- C4 amended: out-of-range highlight positions are not silently
treated as no-highlight: for -len ≤ i < 0 the build follows Python
negative indexing and equals the build that highlights position
i + len, and for i < -len or i ≥ len the build fails with an
IndexError (none) rather than producing the unhighlighted chart. -/
theorem build_out_of_range (records : List Record) (i : Int) :
    ((i < -(records.length : Int) ∨ (records.length : Int) ≤ i) →
      build records (some i) = none)
    ∧ (-(records.length : Int) ≤ i → i < 0 →
      build records (some i) = build records (some (i + records.length))) := by
  constructor
  · intro h
    have e1 : highlightArr (List.replicate records.length (6:Nat)) (some i) 12
        = none := by
      show pySetItem _ _ _ = none
      exact pySetItem_oob _ _ _ (by rwa [List.length_replicate])
    simp only [build, e1]
    rfl
  · intro h1 h2
    have hl : ∀ {α : Type} (base : List α) (v : α),
        base.length = records.length →
        highlightArr base (some i) v
          = highlightArr base (some (i + records.length)) v := by
      intro α base v hb
      show pySetItem base i v = pySetItem base (i + records.length) v
      rw [← hb]
      exact pySetItem_neg base i v (by rw [hb]; exact h1) h2
    have e1 := hl (List.replicate records.length (6:Nat)) 12
      (List.length_replicate _ _)
    have e2 := hl (List.replicate records.length (0:Nat)) 2
      (List.length_replicate _ _)
    have e3 := hl (List.replicate records.length "white") "#00ff00"
      (List.length_replicate _ _)
    have e4 := hl (List.replicate records.length (4:Nat)) 8
      (List.length_replicate _ _)
    have e5 := hl (List.replicate records.length "rgba(255, 0, 0, 0.5)")
      "rgba(255, 0, 0, 0.8)" (List.length_replicate _ _)
    simp only [build, e1, e2, e3, e4, e5]

/-- C4 amended witness: the failure and the negative-index equality at
concrete inputs on the two-record table. -/
theorem build_out_of_range_witness :
    build recs2 (some 5) = none
    ∧ build recs2 (some (-1)) = build recs2 (some (-1 + (recs2.length : Int))) :=
  ⟨(build_out_of_range recs2 5).1 (Or.inr (by decide)),
   (build_out_of_range recs2 (-1)).2 (by decide) (by decide)⟩

/-- C5 counterexample: for a table whose only dropAmount is 0 the
upper endpoint of the first log axis is np.log10(0) = -inf, not a
defined safe range such as [1,1]. -/
theorem axis_range_cex :
    (build [zrec] none).map (fun c => c.layout.yaxis.rangeHi) = some Log10.negInf
    ∧ (build [zrec] none).map (fun c => (c.layout.yaxis.rangeHi).isFiniteVal)
        = some false := by
  refine ⟨by decide, by decide⟩

/-- C5 amended: each vertical log axis is ranged from log10(1) to
log10 of its column maximum with no explicit guard.  The build itself
never fails; when the column maximum is positive the upper endpoint is
the finite log10 of that maximum, but when the maximum is 0 the upper
endpoint is numpy's log10(0) = -inf and when the record list is empty
it is log10(NaN) = NaN — no safe fallback range is substituted. -/
theorem axis_range_spec (records : List Record) :
    (build records none).isSome = true
    ∧ (build records none).map
        (fun c => (c.layout.yaxis.rangeLo, c.layout.yaxis2.rangeLo))
      = some (Log10.finite 1, Log10.finite 1)
    ∧ (build records none).map (fun c => c.layout.yaxis.rangeHi)
      = some (np_log10 (pdMax (records.map Record.odysseyDrop)))
    ∧ (build records none).map (fun c => c.layout.yaxis2.rangeHi)
      = some (np_log10 (pdMax (records.map Record.wShards)))
    ∧ (∀ q : ℚ, pdMax (records.map Record.odysseyDrop) = some q → 0 < q →
        (build records none).map (fun c => c.layout.yaxis.rangeHi)
          = some (Log10.finite q))
    ∧ (pdMax (records.map Record.odysseyDrop) = some 0 →
        (build records none).map (fun c => c.layout.yaxis.rangeHi)
          = some Log10.negInf)
    ∧ (records = [] →
        (build records none).map (fun c => c.layout.yaxis.rangeHi)
          = some Log10.nan) := by
  have hbase : (build records none).map (fun c => c.layout.yaxis.rangeHi)
      = some (np_log10 (pdMax (records.map Record.odysseyDrop))) := rfl
  refine ⟨rfl, rfl, rfl, rfl, ?_, ?_, ?_⟩
  · intro q hq hq0
    rw [hbase, hq]
    show some (if q < 0 then Log10.nan
      else if q = 0 then Log10.negInf else Log10.finite q) = _
    rw [if_neg (by linarith), if_neg (by linarith)]
  · intro hq
    rw [hbase, hq]
    rfl
  · intro h
    subst h
    rfl

/-- C5 amended witness: the positive-maximum, zero-maximum and
empty-table cases of the axis range, each at a concrete table. -/
theorem axis_range_spec_witness :
    (build recs2 none).map (fun c => c.layout.yaxis.rangeHi)
      = some (Log10.finite 100)
    ∧ (build [zrec] none).map (fun c => c.layout.yaxis.rangeHi)
      = some Log10.negInf
    ∧ (build ([] : List Record) none).map (fun c => c.layout.yaxis.rangeHi)
      = some Log10.nan :=
  ⟨(axis_range_spec recs2).2.2.2.2.1 100 (by decide) (by decide),
   (axis_range_spec [zrec]).2.2.2.2.2.1 (by decide),
   (axis_range_spec ([] : List Record)).2.2.2.2.2.2 rfl⟩

/-- C6: highlighting an in-range position p is purely presentational:
the highlighted build succeeds, and has the same point positions,
values, Series A colormap values, tooltips and layout (hence axis
ranges) as the unhighlighted build; the only changes are the marker
arrays, each equal to its default array overwritten at p (size doubled
from 6 to 12 and from 4 to 8, border width 2 with green color #00ff00
in both series, and the more opaque fill in Series B); every series
keeps exactly one point per record. -/
theorem highlight_presentational (records : List Record) (p : Nat)
    (hp : p < records.length) :
    (build records (some (p : Int))).map
        (fun c => (c.seriesA.x, c.seriesA.y, c.seriesA.colors, c.seriesA.hover,
          c.seriesB.x, c.seriesB.y, c.seriesB.hover, c.layout))
      = (build records none).map
        (fun c => (c.seriesA.x, c.seriesA.y, c.seriesA.colors, c.seriesA.hover,
          c.seriesB.x, c.seriesB.y, c.seriesB.hover, c.layout))
    ∧ (build records (some (p : Int))).map (fun c => c.seriesA.sizes)
      = some ((List.replicate records.length 6).set p 12)
    ∧ (build records (some (p : Int))).map (fun c => c.seriesA.lineWidths)
      = some ((List.replicate records.length 0).set p 2)
    ∧ (build records (some (p : Int))).map (fun c => c.seriesA.lineColors)
      = some ((List.replicate records.length "white").set p "#00ff00")
    ∧ (build records (some (p : Int))).map (fun c => c.seriesB.sizes)
      = some ((List.replicate records.length 4).set p 8)
    ∧ (build records (some (p : Int))).map (fun c => c.seriesB.colors)
      = some ((List.replicate records.length "rgba(255, 0, 0, 0.5)").set p
          "rgba(255, 0, 0, 0.8)")
    ∧ (build records (some (p : Int))).map (fun c => c.seriesB.lineWidths)
      = some ((List.replicate records.length 0).set p 2)
    ∧ (build records (some (p : Int))).map (fun c => c.seriesB.lineColors)
      = some ((List.replicate records.length "white").set p "#00ff00")
    ∧ (build records (some (p : Int))).map
        (fun c => (c.seriesA.x.length, c.seriesB.x.length))
      = some (records.length, records.length) := by
  have hl : ∀ {α : Type} (base : List α) (v : α),
      base.length = records.length →
      highlightArr base (some (p : Int)) v = some (base.set p v) := by
    intro α base v hb
    show pySetItem base (p : Int) v = some (base.set p v)
    exact pySetItem_nat base p v (by omega)
  have e1 := hl (List.replicate records.length (6:Nat)) 12
    (List.length_replicate _ _)
  have e2 := hl (List.replicate records.length (0:Nat)) 2
    (List.length_replicate _ _)
  have e3 := hl (List.replicate records.length "white") "#00ff00"
    (List.length_replicate _ _)
  have e4 := hl (List.replicate records.length (4:Nat)) 8
    (List.length_replicate _ _)
  have e5 := hl (List.replicate records.length "rgba(255, 0, 0, 0.5)")
    "rgba(255, 0, 0, 0.8)" (List.length_replicate _ _)
  simp only [build, e1, e2, e3, e4, e5]
  refine ⟨rfl, rfl, rfl, rfl, rfl, rfl, rfl, rfl, ?_⟩
  show some ((List.range records.length).length,
    ((List.range records.length).map (· + 25)).length) = _
  rw [List.length_map, List.length_range]

/-- C6 witness: the highlight-is-presentational facts instantiated at
the two-record table with highlight position 0. -/
theorem highlight_presentational_witness :
    (build recs2 (some ((0 : Nat) : Int))).map
        (fun c => (c.seriesA.x, c.seriesA.y, c.seriesA.colors, c.seriesA.hover,
          c.seriesB.x, c.seriesB.y, c.seriesB.hover, c.layout))
      = (build recs2 none).map
        (fun c => (c.seriesA.x, c.seriesA.y, c.seriesA.colors, c.seriesA.hover,
          c.seriesB.x, c.seriesB.y, c.seriesB.hover, c.layout))
    ∧ (build recs2 (some ((0 : Nat) : Int))).map (fun c => c.seriesA.sizes)
      = some ((List.replicate recs2.length 6).set 0 12)
    ∧ (build recs2 (some ((0 : Nat) : Int))).map (fun c => c.seriesA.lineWidths)
      = some ((List.replicate recs2.length 0).set 0 2)
    ∧ (build recs2 (some ((0 : Nat) : Int))).map (fun c => c.seriesA.lineColors)
      = some ((List.replicate recs2.length "white").set 0 "#00ff00")
    ∧ (build recs2 (some ((0 : Nat) : Int))).map (fun c => c.seriesB.sizes)
      = some ((List.replicate recs2.length 4).set 0 8)
    ∧ (build recs2 (some ((0 : Nat) : Int))).map (fun c => c.seriesB.colors)
      = some ((List.replicate recs2.length "rgba(255, 0, 0, 0.5)").set 0
          "rgba(255, 0, 0, 0.8)")
    ∧ (build recs2 (some ((0 : Nat) : Int))).map (fun c => c.seriesB.lineWidths)
      = some ((List.replicate recs2.length 0).set 0 2)
    ∧ (build recs2 (some ((0 : Nat) : Int))).map (fun c => c.seriesB.lineColors)
      = some ((List.replicate recs2.length "white").set 0 "#00ff00")
    ∧ (build recs2 (some ((0 : Nat) : Int))).map
        (fun c => (c.seriesA.x.length, c.seriesB.x.length))
      = some (recs2.length, recs2.length) :=
  highlight_presentational recs2 0 (by decide)
